import Mathlib

/-
Verification development for the challenge-3 multi-transaction flow
(src/src/main.rs).  The program mints three MINTCOIN tokens in one
programmable transaction, waits, re-queries the sender's MINTCOIN
objects, then merges, splits and invokes `get_flag` in a second
transaction, transferring leftovers back to the sender.

The embedding models:
  * the programmable-transaction builder (inputs with the SDK's
    dedup-by-object-id / dedup-by-pure-bytes behaviour, commands in
    insertion order, `Argument.input i` / `Argument.result i` handles);
  * `TransactionData::new_programmable`;
  * `main` itself as a function from an environment (the values the
    external collaborators return: keystore addresses, coin-query
    results, the reference gas price) to a trace of external actions
    plus either an error or the two built transactions.
-/

namespace Challenge3

/-- On-chain address: the 32-byte value, modelled as a natural number. -/
abbrev Address := Nat

/-- An object reference as returned by `object_ref()`:
(ObjectID, SequenceNumber, ObjectDigest).  The id is the hex string,
the digest is abstracted to a natural number. -/
structure ObjectRef where
  id : String
  version : Nat
  digest : Nat
  deriving DecidableEq, Repr

/-- A coin as returned by the coin read API: its coin type string and its
object reference. -/
structure Coin where
  coinType : String
  ref : ObjectRef
  deriving DecidableEq, Repr

/-- Placeholder coin for the (guarded) list indexing `mint_coins.data[i]`. -/
def dummyCoin : Coin := ⟨"", ⟨"", 0, 0⟩⟩

/-- A Move struct type tag.  Every tag in this program has an empty type
parameter list, so that (constantly empty) field is omitted. -/
structure TypeTag where
  address : String
  module : String
  name : String
  deriving DecidableEq, Repr

/-- `ObjectArg` from the transaction types. -/
inductive ObjectArg where
  | immOrOwnedObject (ref : ObjectRef)
  | sharedObject (id : String) (initial_shared_version : Nat) (mutable : Bool)
  deriving DecidableEq, Repr

/-- `CallArg`: an object input or a BCS-serialized pure value. -/
inductive CallArg where
  | object (o : ObjectArg)
  | pure (bytes : List Nat)
  deriving DecidableEq, Repr

/-- An argument handle inside a programmable transaction: either the i-th
declared input or the result of the i-th command. -/
inductive Argument where
  | input (i : Nat)
  | result (i : Nat)
  deriving DecidableEq, Repr

/-- `ProgrammableMoveCall`: target package/module/function, type
arguments, and the ordered argument handles. -/
structure ProgrammableMoveCall where
  package : String
  module : String
  function : String
  type_arguments : List TypeTag
  arguments : List Argument
  deriving DecidableEq, Repr

/-- The two command forms this program uses. -/
inductive Command where
  | moveCall (c : ProgrammableMoveCall)
  | transferObjects (objs : List Argument) (addr : Argument)
  deriving DecidableEq, Repr

/-- A frozen programmable transaction: ordered inputs, then ordered
commands. -/
structure ProgrammableTransaction where
  inputs : List CallArg
  commands : List Command
  deriving DecidableEq, Repr

/-- BCS serialization of a u64: eight little-endian bytes. -/
def bcs_u64 (n : Nat) : List Nat :=
  [n % 256, n / 256 % 256, n / 256 ^ 2 % 256, n / 256 ^ 3 % 256,
   n / 256 ^ 4 % 256, n / 256 ^ 5 % 256, n / 256 ^ 6 % 256, n / 256 ^ 7 % 256]

/-- BCS serialization of an `AccountAddress`: a fixed 32-byte array
holding the address value. -/
def bcs_address (a : Address) : List Nat :=
  (List.range 32).map (fun i => a / 256 ^ i % 256)

/-- The key the SDK builder dedups inputs by: the object id for object
inputs, the serialized bytes for pure inputs. -/
inductive BuilderArg where
  | object (id : String)
  | pure (bytes : List Nat)
  deriving DecidableEq, Repr

/-- The object id an `ObjectArg` refers to. -/
def objArgId : ObjectArg → String
  | .immOrOwnedObject r => r.id
  | .sharedObject id _ _ => id

/-- The dedup key of a `CallArg`. -/
def builderArg : CallArg → BuilderArg
  | .object o => .object (objArgId o)
  | .pure b => .pure b

/-- Index of the first existing input with the given dedup key. -/
def findBuilderIdx (k : BuilderArg) : List CallArg → Nat → Option Nat
  | [], _ => none
  | c :: rest, i =>
    if builderArg c = k then some i else findBuilderIdx k rest (i + 1)

/-- The programmable transaction builder: accumulated inputs and
commands. -/
structure PTB where
  inputs : List CallArg
  commands : List Command
  deriving DecidableEq, Repr

/-- `ProgrammableTransactionBuilder::new()`. -/
def PTB.new : PTB := ⟨[], []⟩

/-- `ptb.input(call_arg)`: returns the handle of an existing input with
the same dedup key (the SDK keeps inputs in an index map keyed by object
id, resp. pure bytes), otherwise appends the input and returns its fresh
index.  The SDK's kind-mismatch errors cannot arise in this program. -/
def PTB.input (p : PTB) (c : CallArg) : Argument × PTB :=
  match findBuilderIdx (builderArg c) p.inputs 0 with
  | some i => (.input i, p)
  | none => (.input p.inputs.length, ⟨p.inputs ++ [c], p.commands⟩)

/-- `ptb.command(cmd)`: appends the command and returns the handle of its
result slot. -/
def PTB.command (p : PTB) (c : Command) : Argument × PTB :=
  (.result p.commands.length, ⟨p.inputs, p.commands ++ [c]⟩)

/-- `ptb.finish()`: the frozen programmable transaction. -/
def PTB.finish (p : PTB) : ProgrammableTransaction :=
  ⟨p.inputs, p.commands⟩

/-- `TransactionData` for a programmable transaction. -/
structure TransactionData where
  sender : Address
  gas_payment : List ObjectRef
  pt : ProgrammableTransaction
  gas_budget : Nat
  gas_price : Nat
  deriving DecidableEq, Repr

/-- `TransactionData::new_programmable`. -/
def TransactionData.new_programmable (sender : Address)
    (gas_payment : List ObjectRef) (pt : ProgrammableTransaction)
    (gas_budget gas_price : Nat) : TransactionData :=
  ⟨sender, gas_payment, pt, gas_budget, gas_price⟩

/-- Hardcoded package id from main.rs. -/
def PACKAGE_ID : String :=
  "0xc6f00a2b5ec2d161442b305dcb307ba914e20c5268ec931bd14d7ea3454b262b"

/-- Hardcoded treasury-cap object id from main.rs. -/
def TREASURY_CAP_ID : String :=
  "0x11d7aacb27eb65063dbb6ce0fa07f7807316c5e77763c6f2356d1bd3a34a2741"

/-- Hardcoded shared-counter object id from main.rs. -/
def SHARED_COUNTER_ID : String :=
  "0xc3716689fa16bd8d8bf33ce1036b00740c8818ab9826dba846ef736501fd34b7"

/-- The coin type string `format!("\x7b\x7d::mintcoin::MINTCOIN", PACKAGE_ID)`
used as the filter of the bridge query. -/
def MINTCOIN_TYPE : String := PACKAGE_ID ++ "::mintcoin::MINTCOIN"

/-- The default coin type a `get_coins` query with coin type `None`
filters by: the IOTA gas coin type. -/
def IOTA_TYPE : String := "0x2::iota::IOTA"

/-- The MINTCOIN type tag built for the `join`/`split` type arguments. -/
def mintcoin_type_tag : TypeTag := ⟨PACKAGE_ID, "mintcoin", "MINTCOIN"⟩

/-- Transaction 1 (lines 66-89): one shared treasury-cap input, then
three `mintcoin::mint_coin` calls (the loop body is identical on each of
its three iterations). -/
def build_ptb1 : ProgrammableTransaction :=
  let p := PTB.new
  let (treasury_cap_arg, p) :=
    p.input (.object (.sharedObject TREASURY_CAP_ID 6286155 true))
  let (_, p) := p.command (.moveCall
    ⟨PACKAGE_ID, "mintcoin", "mint_coin", [], [treasury_cap_arg]⟩)
  let (_, p) := p.command (.moveCall
    ⟨PACKAGE_ID, "mintcoin", "mint_coin", [], [treasury_cap_arg]⟩)
  let (_, p) := p.command (.moveCall
    ⟨PACKAGE_ID, "mintcoin", "mint_coin", [], [treasury_cap_arg]⟩)
  p.finish

/-- Transaction 2 (lines 137-212): shared counter input, three owned coin
inputs, two joins into coin 1, a split of 5 off coin 1, `get_flag` on the
split result, then both the split result and coin 1 transferred back to
the sender.  `AccountAddress::from_str(&sender_address.to_string())`
round-trips the sender address through its hex string, which is the
identity on the 32-byte value. -/
def build_ptb2 (sender : Address)
    (coin_ref1 coin_ref2 coin_ref3 : ObjectRef) : ProgrammableTransaction :=
  let p := PTB.new
  let (counter_arg, p) :=
    p.input (.object (.sharedObject SHARED_COUNTER_ID 6286155 true))
  let (coin1_arg, p) := p.input (.object (.immOrOwnedObject coin_ref1))
  let (coin2_arg, p) := p.input (.object (.immOrOwnedObject coin_ref2))
  let (coin3_arg, p) := p.input (.object (.immOrOwnedObject coin_ref3))
  let (_, p) := p.command (.moveCall
    ⟨"0x2", "coin", "join", [mintcoin_type_tag], [coin1_arg, coin2_arg]⟩)
  let (_, p) := p.command (.moveCall
    ⟨"0x2", "coin", "join", [mintcoin_type_tag], [coin1_arg, coin3_arg]⟩)
  let (value_arg, p) := p.input (.pure (bcs_u64 5))
  let (coin_with_5, p) := p.command (.moveCall
    ⟨"0x2", "coin", "split", [mintcoin_type_tag], [coin1_arg, value_arg]⟩)
  let (_, p) := p.command (.moveCall
    ⟨PACKAGE_ID, "mintcoin", "get_flag", [], [counter_arg, coin_with_5]⟩)
  let (addr_arg, p) := p.input (.pure (bcs_address sender))
  let (_, p) := p.command (.transferObjects [coin_with_5] addr_arg)
  let (_, p) := p.command (.transferObjects [coin1_arg] addr_arg)
  p.finish

/-- The errors `main` can return early with (lines 45-47, 57, 126-128,
219). -/
inductive MainError where
  | noAddresses
  | noGasCoins1
  | notEnoughMintCoins (found : Nat)
  | noGasCoins2
  deriving DecidableEq, Repr

/-- `ExecuteTransactionRequestType` of the quorum driver API. -/
inductive ExecuteTransactionRequestType where
  | waitForEffectsCert
  | waitForLocalExecution
  deriving DecidableEq, Repr

/-- The externally visible actions `main` performs, in order: ledger
queries, signings, submissions and the fixed sleep.  Building the client
(line 31) performs no ledger query and loading the keystore is local, so
neither is traced. -/
inductive Event where
  | getCoins (addr : Address) (coinType : Option String)
  | getReferenceGasPrice
  | sign (sender : Address) (tx : TransactionData)
  | submit (tx : TransactionData)
      (request_type : Option ExecuteTransactionRequestType)
  | sleep (secs : Nat)
  deriving DecidableEq, Repr

/-- The environment: what the external collaborators return, in the order
`main` asks for them.  `gas_coins1` and `gas_coins2` are the two
`get_coins(sender, None, ..)` results, `mint_coins` the
`get_coins(sender, Some(MINTCOIN_TYPE), ..)` result. -/
structure Env where
  keystore_addresses : List Address
  gas_coins1 : List Coin
  gas_price : Nat
  mint_coins : List Coin
  gas_coins2 : List Coin
  deriving DecidableEq, Repr

/-- On success `main` has built and submitted these two transactions. -/
structure MainOutput where
  tx_data1 : TransactionData
  tx_data2 : TransactionData
  deriving DecidableEq, Repr

/-- `main` (lines 27-250): the trace of external actions performed,
together with the error it returned early with or the two submitted
transactions.  Each step mirrors the source in order: keystore check,
gas-coin query, gas-price query (once), transaction 1 built with budget
50_000_000, signed and submitted with `WaitForLocalExecution`, a fixed
5-second sleep, the MINTCOIN bridge query guarded by `len < 3`,
transaction 2 from the first three MINTCOIN refs, a fresh gas-coin
query, and transaction 2 signed and submitted with the same gas price
and budget. -/
def runMain (env : Env) : List Event × Except MainError MainOutput :=
  match env.keystore_addresses with
  | [] => ([], .error .noAddresses)
  | sender :: _ =>
    match env.gas_coins1 with
    | [] => ([.getCoins sender none], .error .noGasCoins1)
    | gas_coin :: _ =>
      let gas_price := env.gas_price
      let tx_data1 := TransactionData.new_programmable sender
        [gas_coin.ref] build_ptb1 50000000 gas_price
      if env.mint_coins.length < 3 then
        ([.getCoins sender none, .getReferenceGasPrice,
          .sign sender tx_data1,
          .submit tx_data1 (some .waitForLocalExecution), .sleep 5,
          .getCoins sender (some MINTCOIN_TYPE)],
         .error (.notEnoughMintCoins env.mint_coins.length))
      else
        let coin_ref1 := (env.mint_coins.getD 0 dummyCoin).ref
        let coin_ref2 := (env.mint_coins.getD 1 dummyCoin).ref
        let coin_ref3 := (env.mint_coins.getD 2 dummyCoin).ref
        let pt2 := build_ptb2 sender coin_ref1 coin_ref2 coin_ref3
        match env.gas_coins2 with
        | [] =>
          ([.getCoins sender none, .getReferenceGasPrice,
            .sign sender tx_data1,
            .submit tx_data1 (some .waitForLocalExecution), .sleep 5,
            .getCoins sender (some MINTCOIN_TYPE),
            .getCoins sender none],
           .error .noGasCoins2)
        | gas_coin2 :: _ =>
          let tx_data2 := TransactionData.new_programmable sender
            [gas_coin2.ref] pt2 50000000 gas_price
          ([.getCoins sender none, .getReferenceGasPrice,
            .sign sender tx_data1,
            .submit tx_data1 (some .waitForLocalExecution), .sleep 5,
            .getCoins sender (some MINTCOIN_TYPE),
            .getCoins sender none,
            .sign sender tx_data2,
            .submit tx_data2 (some .waitForLocalExecution)],
           .ok ⟨tx_data1, tx_data2⟩)

/-- Is this event a submission? -/
def isSubmit : Event → Bool
  | .submit _ _ => true
  | _ => false

/-- Is this event a signing? -/
def isSign : Event → Bool
  | .sign _ _ => true
  | _ => false

/-- Is this event a reference-gas-price query? -/
def isGasPriceQuery : Event → Bool
  | .getReferenceGasPrice => true
  | _ => false

/-- Number of submissions in a trace. -/
def countSubmits (t : List Event) : Nat := t.countP isSubmit

/-- Number of signings in a trace. -/
def countSigns (t : List Event) : Nat := t.countP isSign

/-- Number of gas-price queries in a trace. -/
def countGasPriceQueries (t : List Event) : Nat := t.countP isGasPriceQuery

/-- The object refs of the `ImmOrOwnedObject` inputs of a transaction, in
input order. -/
def ownedObjectRefs (inputs : List CallArg) : List ObjectRef :=
  inputs.filterMap fun c =>
    match c with
    | .object (.immOrOwnedObject r) => some r
    | _ => none

/-- The gas budgets of the two transactions of a successful run. -/
def outBudgets : Except MainError MainOutput → Option (Nat × Nat)
  | .ok o => some (o.tx_data1.gas_budget, o.tx_data2.gas_budget)
  | .error _ => none

/-- The gas prices of the two transactions of a successful run. -/
def outGasPrices : Except MainError MainOutput → Option (Nat × Nat)
  | .ok o => some (o.tx_data1.gas_price, o.tx_data2.gas_price)
  | .error _ => none

/-- The senders of the two transactions of a successful run. -/
def outSenders : Except MainError MainOutput → Option (Address × Address)
  | .ok o => some (o.tx_data1.sender, o.tx_data2.sender)
  | .error _ => none

/-- The second transaction of a successful run. -/
def outTx2 : Except MainError MainOutput → Option TransactionData
  | .ok o => some o.tx_data2
  | .error _ => none

theorem runMain_noAddresses (g1 : List Coin) (p : Nat) (mc g2 : List Coin) :
    runMain ⟨[], g1, p, mc, g2⟩ = ([], .error .noAddresses) := rfl

theorem runMain_noGas1 (a : Address) (as : List Address) (p : Nat)
    (mc g2 : List Coin) :
    runMain ⟨a :: as, [], p, mc, g2⟩ =
      ([.getCoins a none], .error .noGasCoins1) := rfl

theorem runMain_shortfall (a : Address) (as : List Address) (g : Coin)
    (gs : List Coin) (p : Nat) (mc g2 : List Coin) (h : mc.length < 3) :
    runMain ⟨a :: as, g :: gs, p, mc, g2⟩ =
      (let tx1 := TransactionData.new_programmable a [g.ref] build_ptb1
         50000000 p
       ([.getCoins a none, .getReferenceGasPrice, .sign a tx1,
         .submit tx1 (some .waitForLocalExecution), .sleep 5,
         .getCoins a (some MINTCOIN_TYPE)],
        .error (.notEnoughMintCoins mc.length))) := by
  simp only [runMain]
  rw [if_pos h]

theorem runMain_noGas2 (a : Address) (as : List Address) (g : Coin)
    (gs : List Coin) (p : Nat) (c1 c2 c3 : Coin) (cs : List Coin) :
    runMain ⟨a :: as, g :: gs, p, c1 :: c2 :: c3 :: cs, []⟩ =
      (let tx1 := TransactionData.new_programmable a [g.ref] build_ptb1
         50000000 p
       ([.getCoins a none, .getReferenceGasPrice, .sign a tx1,
         .submit tx1 (some .waitForLocalExecution), .sleep 5,
         .getCoins a (some MINTCOIN_TYPE), .getCoins a none],
        .error .noGasCoins2)) := by
  simp only [runMain]
  rw [if_neg (by simp)]

theorem runMain_success (a : Address) (as : List Address) (g : Coin)
    (gs : List Coin) (p : Nat) (c1 c2 c3 : Coin) (cs : List Coin)
    (g2 : Coin) (gs2 : List Coin) :
    runMain ⟨a :: as, g :: gs, p, c1 :: c2 :: c3 :: cs, g2 :: gs2⟩ =
      (let tx1 := TransactionData.new_programmable a [g.ref] build_ptb1
         50000000 p
       let tx2 := TransactionData.new_programmable a [g2.ref]
         (build_ptb2 a c1.ref c2.ref c3.ref) 50000000 p
       ([.getCoins a none, .getReferenceGasPrice, .sign a tx1,
         .submit tx1 (some .waitForLocalExecution), .sleep 5,
         .getCoins a (some MINTCOIN_TYPE), .getCoins a none,
         .sign a tx2, .submit tx2 (some .waitForLocalExecution)],
        .ok ⟨tx1, tx2⟩)) := by
  simp only [runMain]
  rw [if_neg (by simp)]
  rfl

theorem bcs_u64_ne_bcs_address (n : Nat) (a : Address) :
    bcs_u64 n ≠ bcs_address a := by
  intro h
  have hl := congrArg List.length h
  simp [bcs_u64, bcs_address] at hl

theorem build_ptb2_eq (s : Address) (r1 r2 r3 : ObjectRef)
    (h1 : r1.id ≠ SHARED_COUNTER_ID)
    (h2 : r2.id ≠ SHARED_COUNTER_ID) (h21 : r2.id ≠ r1.id)
    (h3 : r3.id ≠ SHARED_COUNTER_ID) (h31 : r3.id ≠ r1.id)
    (h32 : r3.id ≠ r2.id) :
    build_ptb2 s r1 r2 r3 =
      ⟨[.object (.sharedObject SHARED_COUNTER_ID 6286155 true),
        .object (.immOrOwnedObject r1),
        .object (.immOrOwnedObject r2),
        .object (.immOrOwnedObject r3),
        .pure (bcs_u64 5),
        .pure (bcs_address s)],
       [.moveCall ⟨"0x2", "coin", "join", [mintcoin_type_tag],
          [.input 1, .input 2]⟩,
        .moveCall ⟨"0x2", "coin", "join", [mintcoin_type_tag],
          [.input 1, .input 3]⟩,
        .moveCall ⟨"0x2", "coin", "split", [mintcoin_type_tag],
          [.input 1, .input 4]⟩,
        .moveCall ⟨PACKAGE_ID, "mintcoin", "get_flag", [],
          [.input 0, .result 2]⟩,
        .transferObjects [.result 2] (.input 5),
        .transferObjects [.input 1] (.input 5)]⟩ := by
  have h5 := bcs_u64_ne_bcs_address 5 s
  simp [build_ptb2, PTB.new, PTB.input, PTB.command, PTB.finish,
    findBuilderIdx, builderArg, objArgId,
    Ne.symm h1, Ne.symm h2, Ne.symm h21, Ne.symm h3, Ne.symm h31,
    Ne.symm h32, h5, h1, h2, h21, h3, h31, h32]

theorem exists_cons3_of_not_lt (mc : List Coin) (h : ¬ mc.length < 3) :
    ∃ c1 c2 c3 cs, mc = c1 :: c2 :: c3 :: cs := by
  match mc with
  | c1 :: c2 :: c3 :: cs => exact ⟨c1, c2, c3, cs, rfl⟩
  | [] => simp at h
  | [c] => simp at h
  | [c, c'] => simp at h

/-- Demo MINTCOIN coin 1, as the bridge query could return it. -/
def demoMint1 : Coin := ⟨MINTCOIN_TYPE, ⟨"0xm1", 4, 1⟩⟩

/-- Demo MINTCOIN coin 2. -/
def demoMint2 : Coin := ⟨MINTCOIN_TYPE, ⟨"0xm2", 4, 2⟩⟩

/-- Demo MINTCOIN coin 3. -/
def demoMint3 : Coin := ⟨MINTCOIN_TYPE, ⟨"0xm3", 4, 3⟩⟩

/-- Demo gas coin for transaction 1. -/
def demoGasCoin1 : Coin := ⟨IOTA_TYPE, ⟨"0xg1", 3, 4⟩⟩

/-- Demo gas coin for transaction 2. -/
def demoGasCoin2 : Coin := ⟨IOTA_TYPE, ⟨"0xg2", 5, 6⟩⟩

/-- A demo environment in which every step of `main` succeeds. -/
def demoEnv : Env :=
  ⟨[7], [demoGasCoin1], 1000, [demoMint1, demoMint2, demoMint3],
   [demoGasCoin2]⟩

/-- A demo environment in which the bridge query finds only 2 MINTCOINs. -/
def demoEnvShort : Env :=
  ⟨[7], [demoGasCoin1], 1000, [demoMint1, demoMint2], [demoGasCoin2]⟩

/-- A demo environment in which the first gas-coin query is empty. -/
def demoEnvNoGas1 : Env :=
  ⟨[7], [], 1000, [demoMint1, demoMint2, demoMint3], [demoGasCoin2]⟩

/-- C1: if after transaction 1 the bridge query returns fewer than 3 owned
MINTCOIN objects, `main` fails with the not-enough-MINTCOIN error before
building or submitting transaction 2: exactly one submission and one
signing appear in the trace. -/
theorem C1_shortfall_fails_before_unit2 (a : Address) (as : List Address)
    (g : Coin) (gs : List Coin) (p : Nat) (mc g2 : List Coin)
    (h : mc.length < 3) :
    (runMain ⟨a :: as, g :: gs, p, mc, g2⟩).2 =
        .error (.notEnoughMintCoins mc.length) ∧
      countSubmits (runMain ⟨a :: as, g :: gs, p, mc, g2⟩).1 = 1 ∧
      countSigns (runMain ⟨a :: as, g :: gs, p, mc, g2⟩).1 = 1 := by
  rw [runMain_shortfall a as g gs p mc g2 h]
  exact ⟨rfl, rfl, rfl⟩

/-- C1 witness: concrete run with only 2 MINTCOINs found. -/
theorem C1_shortfall_fails_before_unit2_witness :
    ([demoMint1, demoMint2] : List Coin).length < 3 ∧
      ((runMain demoEnvShort).2 = .error (.notEnoughMintCoins 2) ∧
        countSubmits (runMain demoEnvShort).1 = 1 ∧
        countSigns (runMain demoEnvShort).1 = 1) :=
  ⟨by decide,
   C1_shortfall_fails_before_unit2 7 [] demoGasCoin1 [] 1000
     [demoMint1, demoMint2] [demoGasCoin2] (by decide)⟩

/-- C3: every submission in any run is sent with the explicit
`WaitForLocalExecution` finality-wait mode. -/
theorem C3_submissions_wait_for_local_execution (env : Env)
    (tx : TransactionData) (rt : Option ExecuteTransactionRequestType)
    (h : Event.submit tx rt ∈ (runMain env).1) :
    rt = some .waitForLocalExecution := by
  obtain ⟨addrs, g1, p, mc, g2⟩ := env
  cases addrs with
  | nil => rw [runMain_noAddresses] at h; simp at h
  | cons a as =>
    cases g1 with
    | nil => rw [runMain_noGas1] at h; simp at h
    | cons g gs =>
      by_cases hlen : mc.length < 3
      · rw [runMain_shortfall a as g gs p mc g2 hlen] at h
        simp at h
        exact h.2
      · obtain ⟨c1, c2, c3, cs, rfl⟩ := exists_cons3_of_not_lt mc hlen
        cases g2 with
        | nil =>
          rw [runMain_noGas2] at h
          simp at h
          exact h.2
        | cons g2c gs2 =>
          rw [runMain_success] at h
          simp at h
          rcases h with ⟨-, rfl⟩ | ⟨-, rfl⟩
          · rfl
          · rfl

/-- C3 witness: the concrete first submission of the demo run. -/
theorem C3_submissions_wait_for_local_execution_witness :
    (Event.submit
        (TransactionData.new_programmable 7 [demoGasCoin1.ref] build_ptb1
          50000000 1000) (some .waitForLocalExecution) ∈
        (runMain demoEnv).1) ∧
      (some ExecuteTransactionRequestType.waitForLocalExecution =
        some .waitForLocalExecution) :=
  ⟨by decide,
   C3_submissions_wait_for_local_execution demoEnv
     (TransactionData.new_programmable 7 [demoGasCoin1.ref] build_ptb1
       50000000 1000) (some .waitForLocalExecution) (by decide)⟩

/-- C2: under pairwise-distinct object ids of the three bridge coins (and
distinctness from the shared counter, as a coin is not the counter), the
frozen transaction 2 holds its commands in program order: join(coin1,
coin2), join(coin1, coin3), split(coin1, 5), get_flag(counter,
split-result), then the two transfers; and the handle of the split's
result (`Argument.result 2`, consumed by get_flag) is distinct from the
handle `coin1_arg` (`Argument.input 1`) consumed by the joins. -/
theorem C2_unit2_operations_in_program_order (s : Address)
    (r1 r2 r3 : ObjectRef)
    (h1 : r1.id ≠ SHARED_COUNTER_ID)
    (h2 : r2.id ≠ SHARED_COUNTER_ID) (h21 : r2.id ≠ r1.id)
    (h3 : r3.id ≠ SHARED_COUNTER_ID) (h31 : r3.id ≠ r1.id)
    (h32 : r3.id ≠ r2.id) :
    (build_ptb2 s r1 r2 r3).commands =
        [.moveCall ⟨"0x2", "coin", "join", [mintcoin_type_tag],
           [.input 1, .input 2]⟩,
         .moveCall ⟨"0x2", "coin", "join", [mintcoin_type_tag],
           [.input 1, .input 3]⟩,
         .moveCall ⟨"0x2", "coin", "split", [mintcoin_type_tag],
           [.input 1, .input 4]⟩,
         .moveCall ⟨PACKAGE_ID, "mintcoin", "get_flag", [],
           [.input 0, .result 2]⟩,
         .transferObjects [.result 2] (.input 5),
         .transferObjects [.input 1] (.input 5)] ∧
      (Argument.result 2 ≠ Argument.input 1) := by
  rw [build_ptb2_eq s r1 r2 r3 h1 h2 h21 h3 h31 h32]
  exact ⟨rfl, by decide⟩

/-- C2 witness: the demo bridge coins. -/
theorem C2_unit2_operations_in_program_order_witness :
    (demoMint1.ref.id ≠ SHARED_COUNTER_ID) ∧
      ((build_ptb2 7 demoMint1.ref demoMint2.ref demoMint3.ref).commands =
          [.moveCall ⟨"0x2", "coin", "join", [mintcoin_type_tag],
             [.input 1, .input 2]⟩,
           .moveCall ⟨"0x2", "coin", "join", [mintcoin_type_tag],
             [.input 1, .input 3]⟩,
           .moveCall ⟨"0x2", "coin", "split", [mintcoin_type_tag],
             [.input 1, .input 4]⟩,
           .moveCall ⟨PACKAGE_ID, "mintcoin", "get_flag", [],
             [.input 0, .result 2]⟩,
           .transferObjects [.result 2] (.input 5),
           .transferObjects [.input 1] (.input 5)] ∧
        (Argument.result 2 ≠ Argument.input 1)) :=
  ⟨by decide,
   C2_unit2_operations_in_program_order 7 demoMint1.ref demoMint2.ref
     demoMint3.ref (by decide) (by decide) (by decide) (by decide)
     (by decide) (by decide)⟩

/-- C4: after the `get_flag` call (command 3), the last two commands of
transaction 2 transfer both the split-off coin (`Argument.result 2`) and
the remaining merged coin (`Argument.input 1`) to `Argument.input 5`,
whose declared input is the BCS-serialized sender address. -/
theorem C4_leftovers_transferred_to_sender (s : Address)
    (r1 r2 r3 : ObjectRef)
    (h1 : r1.id ≠ SHARED_COUNTER_ID)
    (h2 : r2.id ≠ SHARED_COUNTER_ID) (h21 : r2.id ≠ r1.id)
    (h3 : r3.id ≠ SHARED_COUNTER_ID) (h31 : r3.id ≠ r1.id)
    (h32 : r3.id ≠ r2.id) :
    (build_ptb2 s r1 r2 r3).commands.getD 3 (.transferObjects [] (.input 0)) =
        .moveCall ⟨PACKAGE_ID, "mintcoin", "get_flag", [],
          [.input 0, .result 2]⟩ ∧
      (build_ptb2 s r1 r2 r3).commands.drop 4 =
        [.transferObjects [.result 2] (.input 5),
         .transferObjects [.input 1] (.input 5)] ∧
      (build_ptb2 s r1 r2 r3).inputs.getD 5 (.pure []) =
        .pure (bcs_address s) := by
  rw [build_ptb2_eq s r1 r2 r3 h1 h2 h21 h3 h31 h32]
  exact ⟨rfl, rfl, rfl⟩

/-- C4 witness: the demo bridge coins. -/
theorem C4_leftovers_transferred_to_sender_witness :
    (demoMint1.ref.id ≠ SHARED_COUNTER_ID) ∧
      ((build_ptb2 7 demoMint1.ref demoMint2.ref demoMint3.ref).commands.getD
          3 (.transferObjects [] (.input 0)) =
          .moveCall ⟨PACKAGE_ID, "mintcoin", "get_flag", [],
            [.input 0, .result 2]⟩ ∧
        (build_ptb2 7 demoMint1.ref demoMint2.ref demoMint3.ref).commands.drop
          4 =
          [.transferObjects [.result 2] (.input 5),
           .transferObjects [.input 1] (.input 5)] ∧
        (build_ptb2 7 demoMint1.ref demoMint2.ref demoMint3.ref).inputs.getD
          5 (.pure []) = .pure (bcs_address 7)) :=
  ⟨by decide,
   C4_leftovers_transferred_to_sender 7 demoMint1.ref demoMint2.ref
     demoMint3.ref (by decide) (by decide) (by decide) (by decide)
     (by decide) (by decide)⟩

/-- C5 counterexample: in the demo run both transactions are submitted,
yet the reference gas price is queried exactly once, refuting a fresh
fee-price query per unit. -/
theorem C5_fresh_price_query_counterexample :
    countSubmits (runMain demoEnv).1 = 2 ∧
      countGasPriceQueries (runMain demoEnv).1 = 1 := by decide

/-- C5 amended: the reference gas price is queried once, before
transaction 1, and that single price value is used in the transaction
data of both transactions. -/
theorem C5_single_price_query_shared (a : Address) (as : List Address)
    (g : Coin) (gs : List Coin) (p : Nat) (c1 c2 c3 : Coin)
    (cs : List Coin) (g2 : Coin) (gs2 : List Coin) :
    countGasPriceQueries
        (runMain ⟨a :: as, g :: gs, p, c1 :: c2 :: c3 :: cs,
          g2 :: gs2⟩).1 = 1 ∧
      outGasPrices
        (runMain ⟨a :: as, g :: gs, p, c1 :: c2 :: c3 :: cs,
          g2 :: gs2⟩).2 = some (p, p) := by
  rw [runMain_success]
  exact ⟨rfl, rfl⟩

/-- C6 counterexample: in the demo run the event right after transaction
1's submission is a fixed 5-second sleep, followed directly by the bridge
query — no poll-until-confirmed call sits between them. -/
theorem C6_fixed_sleep_counterexample :
    isSubmit ((runMain demoEnv).1.getD 3 .getReferenceGasPrice) = true ∧
      (runMain demoEnv).1.getD 4 .getReferenceGasPrice = .sleep 5 ∧
      (runMain demoEnv).1.getD 5 .getReferenceGasPrice =
        .getCoins 7 (some MINTCOIN_TYPE) := by decide

/-- C6 amended: in every run that submits transaction 1, the wait between
that submission and the bridge query is a fixed 5-second sleep (the
submission itself waits for local execution, but no poll-until-confirmed
call precedes the bridge query). -/
theorem C6_wait_is_fixed_sleep (a : Address) (as : List Address)
    (g : Coin) (gs : List Coin) (p : Nat) (mc g2 : List Coin) :
    isSubmit
        ((runMain ⟨a :: as, g :: gs, p, mc, g2⟩).1.getD 3
          .getReferenceGasPrice) = true ∧
      (runMain ⟨a :: as, g :: gs, p, mc, g2⟩).1.getD 4
          .getReferenceGasPrice = .sleep 5 ∧
      (runMain ⟨a :: as, g :: gs, p, mc, g2⟩).1.getD 5
          .getReferenceGasPrice = .getCoins a (some MINTCOIN_TYPE) := by
  by_cases hlen : mc.length < 3
  · rw [runMain_shortfall a as g gs p mc g2 hlen]
    exact ⟨rfl, rfl, rfl⟩
  · obtain ⟨c1, c2, c3, cs, rfl⟩ := exists_cons3_of_not_lt mc hlen
    cases g2 with
    | nil =>
      rw [runMain_noGas2]
      exact ⟨rfl, rfl, rfl⟩
    | cons g2c gs2 =>
      rw [runMain_success]
      exact ⟨rfl, rfl, rfl⟩

/-- C7: transaction 1's operations consume no owned objects at all (so the
fee coin is trivially not consumed); an empty first gas-coin query fails
with the no-gas error before any signing or submission; an empty second
gas-coin query fails with its no-gas error before transaction 2 is signed
or submitted; and under the collaborator facts that the bridge coins are
MINTCOINs, the fee coin is an IOTA coin, and an object id determines its
coin type, transaction 2's fee coin is not among its owned-object
inputs.  The fee-payment reference of transaction 2 is the fresh query's
first coin `g2.ref`. -/
theorem C7_fee_not_consumed_and_no_fee_source :
    (ownedObjectRefs build_ptb1.inputs = []) ∧
      (∀ (a : Address) (as : List Address) (p : Nat) (mc g2 : List Coin),
        (runMain ⟨a :: as, [], p, mc, g2⟩).2 = .error .noGasCoins1 ∧
          countSigns (runMain ⟨a :: as, [], p, mc, g2⟩).1 = 0 ∧
          countSubmits (runMain ⟨a :: as, [], p, mc, g2⟩).1 = 0) ∧
      (∀ (a : Address) (as : List Address) (g : Coin) (gs : List Coin)
          (p : Nat) (c1 c2 c3 : Coin) (cs : List Coin),
        (runMain ⟨a :: as, g :: gs, p, c1 :: c2 :: c3 :: cs, []⟩).2 =
            .error .noGasCoins2 ∧
          countSigns
            (runMain ⟨a :: as, g :: gs, p, c1 :: c2 :: c3 :: cs, []⟩).1 =
            1 ∧
          countSubmits
            (runMain ⟨a :: as, g :: gs, p, c1 :: c2 :: c3 :: cs, []⟩).1 =
            1) ∧
      (∀ (a : Address) (c1 c2 c3 gc2 : Coin),
        c1.ref.id ≠ SHARED_COUNTER_ID → c2.ref.id ≠ SHARED_COUNTER_ID →
        c2.ref.id ≠ c1.ref.id → c3.ref.id ≠ SHARED_COUNTER_ID →
        c3.ref.id ≠ c1.ref.id → c3.ref.id ≠ c2.ref.id →
        c1.coinType = MINTCOIN_TYPE → c2.coinType = MINTCOIN_TYPE →
        c3.coinType = MINTCOIN_TYPE → gc2.coinType = IOTA_TYPE →
        (gc2.ref.id = c1.ref.id → gc2.coinType = c1.coinType) →
        (gc2.ref.id = c2.ref.id → gc2.coinType = c2.coinType) →
        (gc2.ref.id = c3.ref.id → gc2.coinType = c3.coinType) →
        gc2.ref ∉ ownedObjectRefs (build_ptb2 a c1.ref c2.ref c3.ref).inputs) ∧
      (∀ (a : Address) (as : List Address) (g : Coin) (gs : List Coin)
          (p : Nat) (c1 c2 c3 : Coin) (cs : List Coin) (g2 : Coin)
          (gs2 : List Coin),
        outTx2
            (runMain ⟨a :: as, g :: gs, p, c1 :: c2 :: c3 :: cs,
              g2 :: gs2⟩).2 =
          some (TransactionData.new_programmable a [g2.ref]
            (build_ptb2 a c1.ref c2.ref c3.ref) 50000000 p)) := by
  refine ⟨rfl, ?_, ?_, ?_, ?_⟩
  · intro a as p mc g2
    rw [runMain_noGas1]
    exact ⟨rfl, rfl, rfl⟩
  · intro a as g gs p c1 c2 c3 cs
    rw [runMain_noGas2]
    exact ⟨rfl, rfl, rfl⟩
  · intro a c1 c2 c3 gc2 h1 h2 h21 h3 h31 h32 hty1 hty2 hty3 htyg
      hcons1 hcons2 hcons3 hmem
    rw [build_ptb2_eq a c1.ref c2.ref c3.ref h1 h2 h21 h3 h31 h32] at hmem
    simp [ownedObjectRefs] at hmem
    rcases hmem with h | h | h
    · have hts : gc2.coinType = c1.coinType := hcons1 (by rw [h])
      rw [htyg, hty1] at hts
      exact absurd hts (by decide)
    · have hts : gc2.coinType = c2.coinType := hcons2 (by rw [h])
      rw [htyg, hty2] at hts
      exact absurd hts (by decide)
    · have hts : gc2.coinType = c3.coinType := hcons3 (by rw [h])
      rw [htyg, hty3] at hts
      exact absurd hts (by decide)
  · intro a as g gs p c1 c2 c3 cs g2 gs2
    rw [runMain_success]
    rfl

/-- C7 witness: the demo coins, with an empty first gas query and the
typed fee-disjointness instance. -/
theorem C7_fee_not_consumed_and_no_fee_source_witness :
    ((runMain demoEnvNoGas1).2 = .error .noGasCoins1 ∧
        countSigns (runMain demoEnvNoGas1).1 = 0 ∧
        countSubmits (runMain demoEnvNoGas1).1 = 0) ∧
      (demoGasCoin2.coinType = IOTA_TYPE) ∧
      demoGasCoin2.ref ∉
        ownedObjectRefs
          (build_ptb2 7 demoMint1.ref demoMint2.ref demoMint3.ref).inputs :=
  ⟨C7_fee_not_consumed_and_no_fee_source.2.1 7 []
     1000 [demoMint1, demoMint2, demoMint3] [demoGasCoin2],
   by decide,
   C7_fee_not_consumed_and_no_fee_source.2.2.2.1 7 demoMint1 demoMint2
     demoMint3 demoGasCoin2 (by decide) (by decide) (by decide) (by decide)
     (by decide) (by decide) (by decide) (by decide) (by decide) (by decide)
     (by decide) (by decide) (by decide)⟩

/-- C8: the bridge between the two transactions uses exactly the first
three coins, in query order, of the MINTCOIN-filtered owned-coin query as
transaction 2's owned-object inputs. -/
theorem C8_bridge_takes_first_three (a : Address) (as : List Address)
    (g : Coin) (gs : List Coin) (p : Nat) (c1 c2 c3 : Coin)
    (cs : List Coin) (g2 : Coin) (gs2 : List Coin)
    (h1 : c1.ref.id ≠ SHARED_COUNTER_ID)
    (h2 : c2.ref.id ≠ SHARED_COUNTER_ID) (h21 : c2.ref.id ≠ c1.ref.id)
    (h3 : c3.ref.id ≠ SHARED_COUNTER_ID) (h31 : c3.ref.id ≠ c1.ref.id)
    (h32 : c3.ref.id ≠ c2.ref.id) :
    outTx2
        (runMain ⟨a :: as, g :: gs, p, c1 :: c2 :: c3 :: cs,
          g2 :: gs2⟩).2 =
        some (TransactionData.new_programmable a [g2.ref]
          (build_ptb2 a c1.ref c2.ref c3.ref) 50000000 p) ∧
      ownedObjectRefs (build_ptb2 a c1.ref c2.ref c3.ref).inputs =
        ((c1 :: c2 :: c3 :: cs).take 3).map Coin.ref := by
  constructor
  · rw [runMain_success]
    rfl
  · rw [build_ptb2_eq a c1.ref c2.ref c3.ref h1 h2 h21 h3 h31 h32]
    rfl

/-- C8 witness: the demo run. -/
theorem C8_bridge_takes_first_three_witness :
    (demoMint1.ref.id ≠ SHARED_COUNTER_ID) ∧
      (outTx2 (runMain demoEnv).2 =
          some (TransactionData.new_programmable 7 [demoGasCoin2.ref]
            (build_ptb2 7 demoMint1.ref demoMint2.ref demoMint3.ref)
            50000000 1000) ∧
        ownedObjectRefs
            (build_ptb2 7 demoMint1.ref demoMint2.ref demoMint3.ref).inputs =
          (([demoMint1, demoMint2, demoMint3] : List Coin).take 3).map
            Coin.ref) :=
  ⟨by decide,
   C8_bridge_takes_first_three 7 [] demoGasCoin1 [] 1000 demoMint1
     demoMint2 demoMint3 [] demoGasCoin2 [] (by decide) (by decide)
     (by decide) (by decide) (by decide) (by decide)⟩

/-- C9: every built transaction carries the constant gas budget
50,000,000, whatever the environment supplied. -/
theorem C9_constant_gas_budget (a : Address) (as : List Address)
    (g : Coin) (gs : List Coin) (p : Nat) (c1 c2 c3 : Coin)
    (cs : List Coin) (g2 : Coin) (gs2 : List Coin) :
    outBudgets
        (runMain ⟨a :: as, g :: gs, p, c1 :: c2 :: c3 :: cs,
          g2 :: gs2⟩).2 = some (50000000, 50000000) := by
  rw [runMain_success]
  rfl

/-- C10: with an empty keystore `main` fails at once — no ledger query,
signing or submission is performed; otherwise the sender of both
transactions is the first keystore address. -/
theorem C10_sender_is_first_address :
    (∀ (g1 : List Coin) (p : Nat) (mc g2 : List Coin),
      runMain ⟨[], g1, p, mc, g2⟩ = ([], .error .noAddresses)) ∧
      (∀ (a : Address) (as : List Address) (g : Coin) (gs : List Coin)
          (p : Nat) (c1 c2 c3 : Coin) (cs : List Coin) (g2 : Coin)
          (gs2 : List Coin),
        outSenders
            (runMain ⟨a :: as, g :: gs, p, c1 :: c2 :: c3 :: cs,
              g2 :: gs2⟩).2 = some (a, a)) := by
  constructor
  · intro g1 p mc g2
    rfl
  · intro a as g gs p c1 c2 c3 cs g2 gs2
    rw [runMain_success]
    rfl

/-- C5 amended, instantiated: the demo run queries the gas price once and
both transactions carry the same price 1000. -/
theorem C5_single_price_query_shared_witness :
    countGasPriceQueries (runMain demoEnv).1 = 1 ∧
      outGasPrices (runMain demoEnv).2 = some (1000, 1000) :=
  C5_single_price_query_shared 7 [] demoGasCoin1 [] 1000 demoMint1
    demoMint2 demoMint3 [] demoGasCoin2 []

/-- C6 amended, instantiated: in the demo run, events 3, 4 and 5 are the
first submission, the fixed 5-second sleep and the bridge query. -/
theorem C6_wait_is_fixed_sleep_witness :
    isSubmit ((runMain demoEnv).1.getD 3 .getReferenceGasPrice) = true ∧
      (runMain demoEnv).1.getD 4 .getReferenceGasPrice = .sleep 5 ∧
      (runMain demoEnv).1.getD 5 .getReferenceGasPrice =
        .getCoins 7 (some MINTCOIN_TYPE) :=
  C6_wait_is_fixed_sleep 7 [] demoGasCoin1 []
    1000 [demoMint1, demoMint2, demoMint3] [demoGasCoin2]

/-- C9, instantiated: both demo transactions carry budget 50,000,000. -/
theorem C9_constant_gas_budget_witness :
    outBudgets (runMain demoEnv).2 = some (50000000, 50000000) :=
  C9_constant_gas_budget 7 [] demoGasCoin1 [] 1000 demoMint1 demoMint2
    demoMint3 [] demoGasCoin2 []

/-- C10, instantiated: an empty keystore fails with no trace at all, and
the demo run's two transactions both carry sender 7, the first keystore
address. -/
theorem C10_sender_is_first_address_witness :
    runMain ⟨[], [], 0, [], []⟩ = ([], .error .noAddresses) ∧
      outSenders (runMain demoEnv).2 = some (7, 7) :=
  ⟨C10_sender_is_first_address.1 [] 0 [] [],
   C10_sender_is_first_address.2 7 [] demoGasCoin1 [] 1000 demoMint1
     demoMint2 demoMint3 [] demoGasCoin2 []⟩

end Challenge3
